import Mathlib

/-!
Shallow embedding of the `ai_financial_analyst` repository
(`data_retrieval.py` and `main.py`) and verification of claims about it.

Rows of a pandas DataFrame are modelled as association lists from column
names to a small value type; a DataFrame is a list of rows.  Network
responses are explicit inductive outcomes (request exception vs. parsed
body).  Python operations that can raise an uncaught exception are
modelled with `Option` (`none` = the call raises).
-/

set_option autoImplicit false

namespace FinChat

/-- A calendar date, the payload of a `pandas.Timestamp`. -/
structure Date where
  y : Nat
  m : Nat
  d : Nat
  deriving DecidableEq, Repr

/-- Numeric key used for `Timestamp` comparisons: lexicographic on (y, m, d). -/
def dateKey (d : Date) : Nat := d.y * 10000 + d.m * 100 + d.d

/-- `Timestamp` ordering (`<=` on datetimes in pandas). -/
def dateLe (a b : Date) : Bool := decide (dateKey a ≤ dateKey b)

/-- Zero-pad a natural number to two digits, as `strftime` does. -/
def pad2 (n : Nat) : String := if n < 10 then "0" ++ toString n else toString n

/-- Zero-pad a year to four digits, as `strftime %Y` does. -/
def pad4 (n : Nat) : String :=
  if n < 10 then "000" ++ toString n
  else if n < 100 then "00" ++ toString n
  else if n < 1000 then "0" ++ toString n
  else toString n

/-- The result of `ts.strftime('%Y-%m-%d')` on a `Timestamp` holding `d`. -/
def formatYmd (d : Date) : String := pad4 d.y ++ "-" ++ pad2 d.m ++ "-" ++ pad2 d.d

/-- A cell value of a row / a scalar JSON value.
`dateStr d` is a string that `pd.to_datetime` parses to the date `d`
(e.g. `"2023-09-30"`); `str` is any other string, which coerces to `NaT`. -/
inductive Val where
  | str : String → Val
  | int : Int → Val
  | date : Date → Val
  | dateStr : Date → Val
  deriving DecidableEq, Repr

/-- How Python renders the value inside an f-string. -/
def pyShowVal : Val → String
  | .str s => s
  | .int n => toString n
  | .date d => formatYmd d ++ " 00:00:00"
  | .dateStr d => formatYmd d

/-- `pd.to_datetime(v, errors='coerce')` on one cell: a `Timestamp` or a
parseable date string converts, anything else coerces to `NaT` (`none`). -/
def toDatetime : Val → Option Date
  | .date d => some d
  | .dateStr d => some d
  | _ => none

/-- `v.strftime('%Y-%m-%d')`: defined only on `Timestamp` values; on any
other value the attribute access raises (`none`). -/
def pyStrftimeYmd : Val → Option String
  | .date d => some (formatYmd d)
  | _ => none

/-- A row of a DataFrame / a JSON object: column name to value. -/
abbrev Row : Type := List (String × Val)

/-- A DataFrame, as the list of its rows. -/
abbrev DataFrame : Type := List Row

/-- `row.get(k, default)` on a pandas `Series` / Python dict. -/
def rowGetD (r : Row) (k : String) (dflt : Val) : Val := (r.lookup k).getD dflt

/-- The parsed date of a row at column `key`:
`none` models `NaT` (column value missing or not date-like). -/
def rowDateAt (key : String) (r : Row) : Option Date := (r.lookup key).bind toDatetime

/-- `df.dropna(subset=[key])` after `pd.to_datetime(df[key], errors='coerce')`:
keep the rows whose `key` cell parsed to a real date. -/
def dropNaTAt (key : String) (data : List Row) : List Row :=
  data.filter (fun r => (rowDateAt key r).isSome)

/-- `df[key].max()`: the greatest parsed date among the rows
(`none` = `NaT`, when no row has a parsed date). -/
def maxDateAt (key : String) : List Row → Option Date
  | [] => none
  | r :: rest =>
    match rowDateAt key r, maxDateAt key rest with
    | none, o => o
    | some d, none => some d
    | some d, some m => some (if dateLe d m then m else d)

/-- `df[df[key] <= last_available_date]` where
`last_available_date = df[key].max()`; a comparison against `NaT` is false. -/
def filterUpToLastAt (key : String) (data : List Row) : List Row :=
  match maxDateAt key data with
  | none => []
  | some last =>
    data.filter (fun r =>
      match rowDateAt key r with
      | some d => dateLe d last
      | none => false)

/-- The effect of `df[key] = pd.to_datetime(df[key], errors='coerce')` on a
row whose cell parses: the cell now holds the `Timestamp`. -/
def setParsedDateAt (key : String) (r : Row) : Row :=
  match rowDateAt key r with
  | some d => r.map (fun p => if p.1 = key then (p.1, Val.date d) else p)
  | none => r

/-! ## `get_company_news` -/

/-- A news article, as the JSON object SerpAPI returns (string fields). -/
abbrev Article : Type := List (String × String)

/-- `article.get(k)` (default `None`). -/
def aget (a : Article) (k : String) : Option String := a.lookup k

/-- The JSON body of a SerpAPI search response, restricted to the two keys
the code inspects: `errorMsg = some _` iff `'error' in data`, and
`newsResults = some l` iff the body has a `news_results` list `l`. -/
structure NewsJson where
  errorMsg : Option String
  newsResults : Option (List Article)

/-- Outcome of the HTTP call in `get_company_news`: either some
`requests.exceptions.RequestException` (connection error or
`raise_for_status`), or a parsed JSON body. -/
inductive NewsResp where
  | reqExn : NewsResp
  | ok : NewsJson → NewsResp

/-- `get_company_news`, over the response outcome: a request exception or an
`error` key yields `[]` (after printing), otherwise
`data.get('news_results', [])`. -/
def get_company_news : NewsResp → List Article
  | .reqExn => []
  | .ok data =>
    if data.errorMsg.isSome then []
    else data.newsResults.getD []

/-! ## `get_stock_data` -/

/-- Outcome of `yf.Ticker(...).history(...)`: any exception, or a history
DataFrame (with a `Date` column after `reset_index`). -/
inductive StockFetch where
  | exn : StockFetch
  | hist : DataFrame → StockFetch

/-- `get_stock_data`, over the fetch outcome.  Every exception inside the
`try` block — including a missing `Date` column — is caught and yields an
empty DataFrame; otherwise the `Date` column is parsed, `NaT` rows are
dropped, and rows are filtered up to the last available date. -/
def get_stock_data : StockFetch → DataFrame
  | .exn => []
  | .hist df =>
    if df.isEmpty then []
    else if df.all (fun r => (r.lookup "Date").isNone) then []
    else (filterUpToLastAt "Date" (dropNaTAt "Date" df)).map (setParsedDateAt "Date")

/-! ## `get_financial_statements` -/

/-- Outcome of one FMP endpoint request: a request exception, or a parsed
JSON array of statement objects. -/
inductive FmpResp where
  | reqExn : FmpResp
  | ok : List Row → FmpResp

/-- The keys of the `endpoints` dict, in insertion (iteration) order. -/
def stmtTypes : List String := ["income_statement", "balance_sheet", "cash_flow"]

/-- The body of the per-endpoint loop in `get_financial_statements`.
`none` models an uncaught exception: `df['date']` raises `KeyError` when no
row of a non-empty response has a `date` field (only
`requests.exceptions.RequestException` is caught). -/
def fetchStatement : FmpResp → Option DataFrame
  | .reqExn => some []
  | .ok data =>
    if data.isEmpty then some []
    else if data.all (fun r => (r.lookup "date").isNone) then none
    else
      let df := (filterUpToLastAt "date" (dropNaTAt "date" data)).map (setParsedDateAt "date")
      if df.isEmpty then some [] else some df

/-- `Option`-valued map, modelling a Python loop that may raise midway. -/
def mapOpt {α β : Type} (f : α → Option β) : List α → Option (List β)
  | [] => some []
  | x :: xs => do
    let y ← f x
    let ys ← mapOpt f xs
    pure (y :: ys)

/-- `get_financial_statements`, over the per-endpoint network outcomes:
the loop fills one entry per statement type, in `endpoints` order;
`none` models an uncaught exception escaping the loop. -/
def get_financial_statements (net : String → FmpResp) : Option (List (String × DataFrame)) :=
  mapOpt (fun st => (fetchStatement (net st)).map (fun df => (st, df))) stmtTypes

/-! ## `prepare_news_documents` -/

/-- A LangChain `Document`.  Metadata values are the Python objects stored
there: a string or `None`. -/
structure Document where
  page_content : String
  metadata : List (String × Option String)
  deriving DecidableEq, Repr

/-- How an f-string renders `article.get(k)`: `None` prints as `"None"`. -/
def pyShow (o : Option String) : String := o.getD "None"

/-- The `Document` built for one news article. -/
def newsDoc (a : Article) : Document :=
  { page_content :=
      "Title: " ++ pyShow (aget a "title") ++ "\nSnippet: " ++ pyShow (aget a "snippet")
        ++ "\nDate: " ++ pyShow (aget a "date") ++ "\nLink: " ++ pyShow (aget a "link") ++ "\n",
    metadata :=
      [("source", some "news"), ("title", aget a "title"),
       ("date", aget a "date"), ("link", aget a "link")] }

/-- `prepare_news_documents`: one `Document` per article, in order. -/
def prepare_news_documents (news_articles : List Article) : List Document :=
  news_articles.map newsDoc

/-! ## `prepare_financial_documents` -/

/-- `row[[k1, k2, k3]]`: select three labels from a `Series`; raises
`KeyError` (`none`) when any label is absent. -/
def selectThree (r : Row) (k1 k2 k3 : String) : Option (List (String × Val)) := do
  let v1 ← r.lookup k1
  let v2 ← r.lookup k2
  let v3 ← r.lookup k3
  pure [(k1, v1), (k2, v2), (k3, v3)]

/-- The `key_metrics` selection of `prepare_financial_documents`:
branch on which statement field the row contains; the final branch keeps
the whole row. -/
def selectMetrics (r : Row) : Option (List (String × Val)) :=
  if (r.lookup "revenue").isSome then
    selectThree r "revenue" "netIncome" "eps"
  else if (r.lookup "totalAssets").isSome then
    selectThree r "totalAssets" "totalLiabilities" "totalStockholdersEquity"
  else if (r.lookup "operatingCashFlow").isSome then
    selectThree r "operatingCashFlow" "capitalExpenditure" "freeCashFlow"
  else
    some r

/-- `statement_type.replace('_', ' ').capitalize()`. -/
def pyCapitalize (s : String) : String := (s.take 1).toUpper ++ (s.drop 1).toLower

/-- `statement_type.replace('_', ' ').capitalize()` applied to the key. -/
def stmtHeading (statement_type : String) : String :=
  pyCapitalize (statement_type.replace "_" " ")

/-- The metric lines appended to the content: every selected column except
`date`, rendered `"col: value\n"`. -/
def metricLines (km : List (String × Val)) : String :=
  km.foldl
    (fun acc p =>
      if p.1 ≠ "date" then acc ++ p.1 ++ ": " ++ pyShowVal p.2 ++ "\n" else acc)
    ""

/-- The loop body of `prepare_financial_documents` for one row:
format the date (raises on a non-`Timestamp`, hence the `'N/A'` default can
never succeed), select the key metrics, build the `Document`. -/
def financialDoc (statement_type : String) (r : Row) : Option Document := do
  let dateStr ← pyStrftimeYmd (rowGetD r "date" (.str "N/A"))
  let km ← selectMetrics r
  pure
    { page_content :=
        stmtHeading statement_type ++ " Report for " ++ dateStr ++ ":\n" ++ metricLines km,
      metadata := [("source", some statement_type), ("date", some dateStr)] }

/-- `prepare_financial_documents`: iterate over the statement mapping; an
empty DataFrame is skipped (after printing), a non-empty one contributes
one `Document` per row; `none` models an exception escaping the loop. -/
def prepare_financial_documents : List (String × DataFrame) → Option (List Document)
  | [] => some []
  | (st, df) :: rest =>
    if df.isEmpty then prepare_financial_documents rest
    else do
      let docs ← mapOpt (financialDoc st) df
      let more ← prepare_financial_documents rest
      pure (docs ++ more)

/-- `prepare_all_documents`: news documents then financial documents. -/
def prepare_all_documents (news_articles : List Article)
    (financial_statements : List (String × DataFrame)) : Option (List Document) := do
  let news_docs := prepare_news_documents news_articles
  let financial_docs ← prepare_financial_documents financial_statements
  pure (news_docs ++ financial_docs)

/-! ## `main.py`: QA chain and interactive loop -/

/-- The local language model handle (`OllamaLLM(model=...)`): its model name. -/
structure LLM where
  model : String

/-- The vector store, abstracted to the documents it indexes. -/
abbrev VectorStore : Type := List Document

/-- A LangChain `PromptTemplate`. -/
structure PromptTemplate where
  template : String
  input_variables : List String
  deriving DecidableEq

/-- The `RetrievalQA` chain, holding exactly the fields
`create_qa_chain` sets. -/
structure QAChain where
  llm : LLM
  chain_type : String
  retriever : VectorStore
  return_source_documents : Bool
  prompt : PromptTemplate
  input_key : String

/-- The constant `prompt_template` string literal of `create_qa_chain`. -/
def prompt_template : String := "\nYou are a highly knowledgeable and professional financial analyst assistant with expertise in various aspects of finance, including but not limited to financial markets, stock analysis, economic indicators, company financial statements, and market trends.\n\n**Your Objectives:**\n\n1. **Provide Clear and Concise Answers**: Offer answers that are straightforward, well-structured, and easy to understand. Avoid unnecessary jargon. If technical terms are used, provide brief explanations to ensure the user fully comprehends the information.\n\n2. **Strictly Use Provided Context**: Your responses must be **strictly based on the information provided in the \"Context\" section** below. Do not introduce any information that is not included in the context. If the answer is not found within the context, politely inform the user that the information is not available.\n\n3. **Maintain Professionalism**: Use a neutral and professional tone at all times. Do not include personal opinions, biases, or emotions. Ensure that your language is respectful and appropriate for all users.\n\n4. **Avoid Personalized Investment Advice**: Do not provide personalized investment recommendations or advice. If a user asks for such advice, gently remind them that you are not authorized to provide personalized investment guidance and that all information is for informational purposes only.\n\n5. **Informational Purposes Only**: Any predictions, analyses, or forward-looking statements should be presented as informational and not as definitive forecasts. Use phrases like \"Based on the provided information...\" or \"The context suggests that...\".\n\n6. **Handle Unavailable Information Appropriately**: If the necessary information to answer the user's question is not present in the context, respond by:\n\n   - Politely informing the user that the information is not available.\n   - Encouraging the user to provide additional context or data if possible.\n   - Avoiding speculation or assumptions beyond the provided context.\n\n7. **Ethical and Compliance Standards**: Adhere to all ethical guidelines and compliance standards, including confidentiality and data protection. Do not disclose any sensitive information.\n\n8. **Formatting Guidelines**:\n\n   - **Introduction**: Begin with a brief acknowledgment of the user's query.\n   - **Main Content**: Present information in organized paragraphs or bullet points.\n   - **Conclusion**: End with an offer for further assistance if appropriate.\n   - **Clarity**: Use headings or subheadings if the answer is long or covers multiple topics.\n   - **Numerical Data**: When citing figures or statistics from the context, ensure accuracy and clarity.\n\n9. **Examples and Analogies**: If it helps clarify the information, use examples or simple analogies, but only if they are supported by the context.\n\n10. **Language and Tone**:\n\n    - Use formal language appropriate for professional communication.\n    - Be polite and courteous.\n    - Avoid colloquialisms, slang, or overly casual expressions.\n\nContext:\n{context}\n\nQuestion:\n{question}\n\nAnswer:"

/-- `create_qa_chain`: builds the retriever from the vector store and the
chain from the constant prompt template. -/
def create_qa_chain (llm : LLM) (vector_store : VectorStore) : QAChain :=
  { llm := llm,
    chain_type := "stuff",
    retriever := vector_store,
    return_source_documents := false,
    prompt := { template := prompt_template, input_variables := ["context", "question"] },
    input_key := "question" }

/-- The exit test of the interactive loop: `user_query.lower() in ['exit', 'quit']`. -/
def isExitCmd (user_query : String) : Bool :=
  ["exit", "quit"].contains user_query.toLower

/-- The interactive loop of `main`, over the (finite prefix of the) sequence
of user inputs: returns the payloads passed to `qa_chain.invoke`, in order,
and whether the loop exited via the goodbye branch.  An empty remaining
input list means the loop is still waiting at `input()`. -/
def mainLoop : List String → List (List (String × String)) × Bool
  | [] => ([], false)
  | q :: rest =>
    if isExitCmd q then ([], true)
    else
      let (sent, exited) := mainLoop rest
      ([("question", q)] :: sent, exited)

/-- A sample income-statement row (shape of one FMP income-statement JSON
object after date conversion), used to exercise the document pipeline. -/
def sampleIncomeRow : Row :=
  [("date", Val.date ⟨2023, 9, 30⟩), ("revenue", Val.int 383285000000),
   ("netIncome", Val.int 96995000000), ("eps", Val.int 6)]

/-! ## Helper lemmas -/

theorem dateLe_iff (a b : Date) : dateLe a b = true ↔ dateKey a ≤ dateKey b := by
  simp [dateLe]

theorem le_maxDateAt (key : String) (data : List Row) (r : Row) (hr : r ∈ data)
    (d : Date) (hd : rowDateAt key r = some d) :
    ∃ m, maxDateAt key data = some m ∧ dateLe d m = true := by
  induction data with
  | nil => cases hr
  | cons a rest ih =>
    rcases List.mem_cons.mp hr with h | h
    · subst h
      rw [maxDateAt, hd]
      rcases hrest : maxDateAt key rest with _ | m0
      · exact ⟨d, rfl, by simp [dateLe_iff]⟩
      · by_cases hc : dateLe d m0 = true
        · exact ⟨m0, by simp [hc], hc⟩
        · refine ⟨d, ?_, by simp [dateLe_iff]⟩
          simp [hc]
    · obtain ⟨m0, hm0, hle⟩ := ih h
      rw [maxDateAt, hm0]
      rcases ha : rowDateAt key a with _ | d0
      · exact ⟨m0, rfl, hle⟩
      · by_cases hc : dateLe d0 m0 = true
        · exact ⟨m0, by simp [hc], hle⟩
        · refine ⟨d0, by simp [hc], ?_⟩
          rw [dateLe_iff] at *
          omega

theorem mem_dropNaTAt {key : String} {data : List Row} {r : Row}
    (hr : r ∈ dropNaTAt key data) : r ∈ data ∧ (rowDateAt key r).isSome = true :=
  ⟨(List.mem_filter.mp hr).1, (List.mem_filter.mp hr).2⟩

theorem mapOpt_length {α β : Type} (f : α → Option β) :
    ∀ (l : List α) (l' : List β), mapOpt f l = some l' → l'.length = l.length := by
  intro l
  induction l with
  | nil => intro l' h; simp [mapOpt] at h; simp [← h]
  | cons x xs ih =>
    intro l' h
    rcases hx : f x with _ | y <;> rw [mapOpt, hx] at h
    · simp at h
    · rcases hxs : mapOpt f xs with _ | ys <;> rw [hxs] at h
      · simp at h
      · simp at h
        rw [← h]
        simp [ih ys hxs]

theorem mapOpt_getElem {α β : Type} (f : α → Option β) :
    ∀ (l : List α) (l' : List β), mapOpt f l = some l' →
      ∀ (i : Nat) (r : α), l[i]? = some r → ∃ y, f r = some y ∧ l'[i]? = some y := by
  intro l
  induction l with
  | nil => intro l' _ i r hi; simp at hi
  | cons x xs ih =>
    intro l' h i r hi
    rcases hx : f x with _ | y <;> rw [mapOpt, hx] at h
    · simp at h
    · rcases hxs : mapOpt f xs with _ | ys <;> rw [hxs] at h
      · simp at h
      · simp at h
        subst h
        cases i with
        | zero => simp at hi; subst hi; exact ⟨y, hx, by simp⟩
        | succ j =>
          simp at hi
          obtain ⟨z, hz, hz'⟩ := ih ys hxs j r hi
          exact ⟨z, hz, by simpa using hz'⟩

theorem mapOpt_pair_keys {α β : Type} (g : α → Option β) :
    ∀ (l : List α) (m : List (α × β)),
      mapOpt (fun a => (g a).map (fun b => (a, b))) l = some m →
      m.map Prod.fst = l := by
  intro l
  induction l with
  | nil => intro m h; simp [mapOpt] at h; simp [← h]
  | cons x xs ih =>
    intro m h
    rcases hx : g x with _ | b <;> rw [mapOpt, hx] at h
    · simp at h
    · rcases hxs : mapOpt (fun a => (g a).map (fun b => (a, b))) xs with _ | ms <;>
        rw [hxs] at h
      · simp at h
      · simp [Option.map_some] at h
        rw [← h]
        simp [ih ms hxs]

theorem selectThree_spec (r : Row) (k1 k2 k3 : String) (km : List (String × Val))
    (h : selectThree r k1 k2 k3 = some km) :
    ∃ v1 v2 v3, r.lookup k1 = some v1 ∧ r.lookup k2 = some v2 ∧ r.lookup k3 = some v3 ∧
      km = [(k1, v1), (k2, v2), (k3, v3)] := by
  rcases h1 : r.lookup k1 with _ | v1 <;> rw [selectThree, h1] at h
  · simp at h
  · rcases h2 : r.lookup k2 with _ | v2 <;> rw [h2] at h
    · simp at h
    · rcases h3 : r.lookup k3 with _ | v3 <;> rw [h3] at h
      · simp at h
      · simp at h
        exact ⟨v1, v2, v3, rfl, rfl, rfl, h.symm⟩

theorem financialDoc_spec (st : String) (r : Row) (doc : Document)
    (h : financialDoc st r = some doc) :
    ∃ ds km, pyStrftimeYmd (rowGetD r "date" (Val.str "N/A")) = some ds ∧
      selectMetrics r = some km ∧
      doc = { page_content := stmtHeading st ++ " Report for " ++ ds ++ ":\n" ++ metricLines km,
              metadata := [("source", some st), ("date", some ds)] } := by
  rcases hds : pyStrftimeYmd (rowGetD r "date" (Val.str "N/A")) with _ | ds <;>
    rw [financialDoc, hds] at h
  · simp at h
  · rcases hkm : selectMetrics r with _ | km <;> rw [hkm] at h
    · simp at h
    · simp at h
      exact ⟨ds, km, rfl, rfl, h.symm⟩

/-! ## Claims -/

/-- C10: the "filter data up to the last available date" step of
`get_stock_data` and `get_financial_statements` is the identity on the
DataFrame left after dropping `NaT` rows: keeping only the rows whose date
is at most the maximum date removes no row. -/
theorem filter_up_to_last_is_identity (key : String) (data : List Row) :
    filterUpToLastAt key (dropNaTAt key data) = dropNaTAt key data := by
  rcases hl : dropNaTAt key data with _ | ⟨r0, rest⟩
  · rfl
  · have hvalid : ∀ r ∈ r0 :: rest, (rowDateAt key r).isSome = true := by
      intro r hr
      exact (mem_dropNaTAt (hl ▸ hr)).2
    obtain ⟨d0, hd0⟩ := Option.isSome_iff_exists.mp (hvalid r0 (List.mem_cons_self r0 rest))
    obtain ⟨m, hm, _⟩ := le_maxDateAt key (r0 :: rest) r0 (List.mem_cons_self r0 rest) d0 hd0
    rw [filterUpToLastAt, hm]
    apply List.filter_eq_self.mpr
    intro r hr
    obtain ⟨d, hd⟩ := Option.isSome_iff_exists.mp (hvalid r hr)
    obtain ⟨m', hm', hle⟩ := le_maxDateAt key (r0 :: rest) r hr d hd
    rw [hm] at hm'
    cases hm'
    simp [hd, hle]

/-- C1: `prepare_all_documents` returns exactly the news documents followed
by the financial documents, so its length is the sum of the two lengths and
every news document precedes every financial document. -/
theorem prepare_all_documents_concat (news_articles : List Article)
    (financial_statements : List (String × DataFrame)) (docs : List Document)
    (h : prepare_all_documents news_articles financial_statements = some docs) :
    ∃ financial_docs,
      prepare_financial_documents financial_statements = some financial_docs ∧
      docs = prepare_news_documents news_articles ++ financial_docs ∧
      docs.length = (prepare_news_documents news_articles).length + financial_docs.length := by
  rcases hf : prepare_financial_documents financial_statements with _ | fdocs <;>
    rw [prepare_all_documents, hf] at h
  · simp at h
  · simp at h
    refine ⟨fdocs, rfl, h.symm, ?_⟩
    rw [← h]
    simp

theorem prepare_all_documents_concat_witness :
    ∃ financial_docs,
      prepare_financial_documents [("income_statement", ([] : DataFrame))] =
        some financial_docs ∧
      prepare_news_documents [[("title", "t")]] =
        prepare_news_documents [[("title", "t")]] ++ financial_docs ∧
      (prepare_news_documents [[("title", "t")]]).length =
        (prepare_news_documents [[("title", "t")]]).length + financial_docs.length :=
  prepare_all_documents_concat [[("title", "t")]] [("income_statement", [])]
    (prepare_news_documents [[("title", "t")]]) rfl

/-- C3: `prepare_news_documents` yields exactly one `Document` per article,
in input order, with the fixed
`"Title: ...\nSnippet: ...\nDate: ...\nLink: ...\n"` template as content and
metadata holding the source `"news"` and the article's title, date and
link. -/
theorem prepare_news_documents_spec (news_articles : List Article) :
    (prepare_news_documents news_articles).length = news_articles.length ∧
    ∀ i : Nat,
      (prepare_news_documents news_articles)[i]? =
        (news_articles[i]?).map (fun a =>
          { page_content :=
              "Title: " ++ pyShow (aget a "title") ++ "\nSnippet: "
                ++ pyShow (aget a "snippet") ++ "\nDate: " ++ pyShow (aget a "date")
                ++ "\nLink: " ++ pyShow (aget a "link") ++ "\n",
            metadata :=
              [("source", some "news"), ("title", aget a "title"),
               ("date", aget a "date"), ("link", aget a "link")] }) := by
  refine ⟨by simp [prepare_news_documents], fun i => ?_⟩
  rw [prepare_news_documents, List.getElem?_map newsDoc news_articles i]
  rfl

/-- C5: `get_company_news` returns `[]` on a request exception and on a
response whose JSON has an `error` key, and otherwise returns the
`news_results` field, defaulting to `[]` when absent; as a total function
of the response outcome, it raises nothing. -/
theorem get_company_news_spec :
    get_company_news NewsResp.reqExn = [] ∧
    (∀ j : NewsJson, j.errorMsg.isSome = true → get_company_news (NewsResp.ok j) = []) ∧
    (∀ j : NewsJson, j.errorMsg = none →
      get_company_news (NewsResp.ok j) = j.newsResults.getD []) := by
  refine ⟨rfl, fun j h => ?_, fun j h => ?_⟩ <;> simp [get_company_news, h]

theorem get_company_news_spec_witness :
    get_company_news (NewsResp.ok ⟨some "bad key", some [[("title", "t")]]⟩) = [] ∧
    get_company_news (NewsResp.ok ⟨none, some [[("title", "t")]]⟩) = [[("title", "t")]] :=
  ⟨get_company_news_spec.2.1 ⟨some "bad key", some [[("title", "t")]]⟩ rfl,
   by rw [get_company_news_spec.2.2 ⟨none, some [[("title", "t")]]⟩ rfl]; rfl⟩

/-- C7: the interactive loop of `main` forwards every input before the
first exit command unchanged as the `question` payload of
`qa_chain.invoke`, and terminates exactly when an input whose lowercase
form is `exit` or `quit` is read. -/
theorem main_loop_spec (inputs : List String) :
    (mainLoop inputs).1 =
      (inputs.takeWhile (fun q => !isExitCmd q)).map (fun q => [("question", q)]) ∧
    (mainLoop inputs).2 = inputs.any isExitCmd := by
  induction inputs with
  | nil => exact ⟨rfl, rfl⟩
  | cons q rest ih =>
    by_cases h : isExitCmd q
    · refine ⟨?_, ?_⟩ <;> simp [mainLoop, h]
    · refine ⟨?_, ?_⟩ <;>
        simp [mainLoop, h, ih.1, ih.2]

/-- C8: the prompt template installed by `create_qa_chain` is one fixed
constant with input variables `context` and `question`: any two runs,
whatever their model handle and vector store, install the identical
template. -/
theorem create_qa_chain_prompt_fixed (llm1 llm2 : LLM) (vs1 vs2 : VectorStore) :
    (create_qa_chain llm1 vs1).prompt = (create_qa_chain llm2 vs2).prompt ∧
    (create_qa_chain llm1 vs1).prompt.template = prompt_template ∧
    (create_qa_chain llm1 vs1).prompt.input_variables = ["context", "question"] :=
  ⟨rfl, rfl, rfl⟩

/-- C4: whenever `get_financial_statements` returns, the returned mapping
has exactly the keys `income_statement`, `balance_sheet` and `cash_flow`,
in endpoint order, one per HTTP endpoint, whatever the outcome of each
request. -/
theorem get_financial_statements_keys (net : String → FmpResp)
    (m : List (String × DataFrame)) (h : get_financial_statements net = some m) :
    m.map Prod.fst = ["income_statement", "balance_sheet", "cash_flow"] := by
  rw [get_financial_statements] at h
  simpa [stmtTypes] using
    mapOpt_pair_keys (fun st => fetchStatement (net st)) stmtTypes m h

theorem get_financial_statements_keys_witness :
    ((get_financial_statements (fun _ => FmpResp.reqExn)).getD []).map Prod.fst =
      ["income_statement", "balance_sheet", "cash_flow"] :=
  get_financial_statements_keys (fun _ => FmpResp.reqExn)
    ((get_financial_statements (fun _ => FmpResp.reqExn)).getD []) rfl

/-- C6: `get_stock_data` returns an empty DataFrame on any retrieval
exception and on an empty fetched history, and the per-statement loop of
`get_financial_statements` stores an empty DataFrame on a request
exception, an empty response body, and when no row of a response with a
`date` column survives date parsing; none of these outcomes is an
exception (`get_stock_data` is total, `fetchStatement` returns `some`). -/
theorem empty_result_on_failure :
    get_stock_data StockFetch.exn = [] ∧
    get_stock_data (StockFetch.hist []) = [] ∧
    fetchStatement FmpResp.reqExn = some [] ∧
    fetchStatement (FmpResp.ok []) = some [] ∧
    (∀ data : List Row, data ≠ [] →
      ¬ data.all (fun r => (r.lookup "date").isNone) = true →
      dropNaTAt "date" data = [] →
      fetchStatement (FmpResp.ok data) = some []) := by
  refine ⟨rfl, rfl, rfl, rfl, fun data hne hcol hdrop => ?_⟩
  have hemp : data.isEmpty = false := by
    cases data
    · exact absurd rfl hne
    · rfl
  have hcol' : data.all (fun r => (r.lookup "date").isNone) = false :=
    Bool.eq_false_iff.mpr (fun hc => hcol hc)
  rw [fetchStatement, hemp, hcol', hdrop]
  simp [filterUpToLastAt, maxDateAt]

theorem empty_result_on_failure_witness :
    dropNaTAt "date" [[("date", Val.str "not a date")]] = [] ∧
    fetchStatement (FmpResp.ok [[("date", Val.str "not a date")]]) = some [] :=
  ⟨rfl,
   empty_result_on_failure.2.2.2.2 [[("date", Val.str "not a date")]]
     (by decide) (by decide) rfl⟩

/-- C9: the `.strftime` call of `prepare_financial_documents` is safe
exactly under the precondition `get_financial_statements` establishes: on a
row whose `date` cell is a parsed datetime, the call succeeds and the
document's metadata date is the row's date formatted `YYYY-MM-DD`; on a row
with no `date` cell the call is made on the string `'N/A'` and fails. -/
theorem financial_date_strftime (st : String) (r : Row) :
    (∀ d : Date, r.lookup "date" = some (Val.date d) →
      pyStrftimeYmd (rowGetD r "date" (Val.str "N/A")) = some (formatYmd d) ∧
      ∀ doc : Document, financialDoc st r = some doc →
        doc.metadata = [("source", some st), ("date", some (formatYmd d))]) ∧
    (r.lookup "date" = none → financialDoc st r = none) := by
  constructor
  · intro d hd
    have hstr : pyStrftimeYmd (rowGetD r "date" (Val.str "N/A")) = some (formatYmd d) := by
      simp [rowGetD, hd, pyStrftimeYmd]
    refine ⟨hstr, fun doc hdoc => ?_⟩
    obtain ⟨ds, km, hds, _, hdocEq⟩ := financialDoc_spec st r doc hdoc
    rw [hstr] at hds
    cases hds
    rw [hdocEq]
  · intro hnone
    simp [financialDoc, rowGetD, hnone, pyStrftimeYmd]

theorem financial_date_strftime_witness :
    pyStrftimeYmd (rowGetD sampleIncomeRow "date" (Val.str "N/A")) = some "2023-09-30" ∧
    financialDoc "income_statement" [("revenue", Val.int 1)] = none :=
  ⟨((financial_date_strftime "income_statement" sampleIncomeRow).1 ⟨2023, 9, 30⟩ rfl).1,
   (financial_date_strftime "income_statement" [("revenue", Val.int 1)]).2 rfl⟩

/-- C2: when `prepare_financial_documents` returns on a non-empty statement
DataFrame, each row yields exactly one `Document`, and its selected key
metrics are `revenue`, `netIncome`, `eps` when the row contains `revenue`;
otherwise `totalAssets`, `totalLiabilities`, `totalStockholdersEquity` when
it contains `totalAssets`; otherwise `operatingCashFlow`,
`capitalExpenditure`, `freeCashFlow` when it contains `operatingCashFlow`;
otherwise the whole row, whose content lines then skip only `date`. -/
theorem prepare_financial_documents_rows (st : String) (df : DataFrame)
    (docs : List Document) (hne : df ≠ [])
    (h : prepare_financial_documents [(st, df)] = some docs) :
    docs.length = df.length ∧
    ∀ (i : Nat) (r : Row), df[i]? = some r →
      ∃ ds km,
        pyStrftimeYmd (rowGetD r "date" (Val.str "N/A")) = some ds ∧
        selectMetrics r = some km ∧
        docs[i]? = some
          { page_content := stmtHeading st ++ " Report for " ++ ds ++ ":\n" ++ metricLines km,
            metadata := [("source", some st), ("date", some ds)] } ∧
        (if (r.lookup "revenue").isSome then
            ∃ v1 v2 v3, km = [("revenue", v1), ("netIncome", v2), ("eps", v3)]
          else if (r.lookup "totalAssets").isSome then
            ∃ v1 v2 v3,
              km = [("totalAssets", v1), ("totalLiabilities", v2),
                    ("totalStockholdersEquity", v3)]
          else if (r.lookup "operatingCashFlow").isSome then
            ∃ v1 v2 v3,
              km = [("operatingCashFlow", v1), ("capitalExpenditure", v2),
                    ("freeCashFlow", v3)]
          else km = r) := by
  have hemp : df.isEmpty = false := by
    cases df
    · exact absurd rfl hne
    · rfl
  rcases hmo : mapOpt (financialDoc st) df with _ | docs0 <;>
    simp only [prepare_financial_documents, hemp, Bool.false_eq_true, if_false, hmo,
      Option.bind_eq_bind, Option.none_bind, Option.some_bind, Option.bind_some,
      Option.pure_def] at h
  · cases h
  · simp only [List.append_nil, Option.some.injEq] at h
    subst h
    constructor
    · exact mapOpt_length (financialDoc st) df docs0 hmo
    · intro i r hi
      obtain ⟨doc, hdoc, hdoc'⟩ := mapOpt_getElem (financialDoc st) df docs0 hmo i r hi
      obtain ⟨ds, km, hds, hkm, hdocEq⟩ := financialDoc_spec st r doc hdoc
      refine ⟨ds, km, hds, hkm, by rw [hdoc', hdocEq], ?_⟩
      rw [selectMetrics] at hkm
      by_cases h1 : (r.lookup "revenue").isSome = true
      · rw [if_pos h1] at hkm ⊢
        obtain ⟨v1, v2, v3, _, _, _, hkmEq⟩ := selectThree_spec r _ _ _ km hkm
        exact ⟨v1, v2, v3, hkmEq⟩
      · rw [if_neg h1] at hkm ⊢
        by_cases h2 : (r.lookup "totalAssets").isSome = true
        · rw [if_pos h2] at hkm ⊢
          obtain ⟨v1, v2, v3, _, _, _, hkmEq⟩ := selectThree_spec r _ _ _ km hkm
          exact ⟨v1, v2, v3, hkmEq⟩
        · rw [if_neg h2] at hkm ⊢
          by_cases h3 : (r.lookup "operatingCashFlow").isSome = true
          · rw [if_pos h3] at hkm ⊢
            obtain ⟨v1, v2, v3, _, _, _, hkmEq⟩ := selectThree_spec r _ _ _ km hkm
            exact ⟨v1, v2, v3, hkmEq⟩
          · rw [if_neg h3] at hkm ⊢
            exact (Option.some.inj hkm).symm

theorem prepare_financial_documents_rows_witness :
    ((prepare_financial_documents
        [("income_statement", [sampleIncomeRow])]).getD []).length =
      ([sampleIncomeRow] : DataFrame).length :=
  (prepare_financial_documents_rows "income_statement" [sampleIncomeRow]
    ((prepare_financial_documents [("income_statement", [sampleIncomeRow])]).getD [])
    (by decide) rfl).1

end FinChat
